/-
  Verification development for the brs2rbxl converter.

  Shallow embedding of the three source files:
    - cframe.rs : the CoordinateFrame affine-transform algebra,
    - part.rs   : the orientation table, PartDef builder/resolution,
                  color conversion, and the per-asset decomposition rules,
    - main.rs   : the per-brick conversion loop.

  Machine floats (f32) are embedded as real numbers; Rust panics
  (out-of-range indexing, HashMap indexing with a missing key) are
  embedded as Option failure (`none`).
-/
import Mathlib

noncomputable section

namespace BrsRbxl

/-- Vector of three scalar components (rbx Vector3). -/
structure Vec3 where
  x : ℝ
  y : ℝ
  z : ℝ

/-- Rotation matrix handed to the output format (rbx Matrix3):
three row vectors, as extracted by CoordinateFrame::rotation_matrix. -/
structure Mat3 where
  r0 : Vec3
  r1 : Vec3
  r2 : Vec3

/-- An RGBA color with byte channels (brickadia Color). -/
structure Color where
  r : ℕ
  g : ℕ
  b : ℕ
  a : ℕ

/-- A color with real channels in the output encoding (rbx Color3). -/
structure Color3 where
  r : ℝ
  g : ℝ
  b : ℝ

/-- Property values attached to output instances (rbx Variant, the
variants this program writes). -/
inductive Variant where
  | vec3 (v : Vec3)
  | cframe (pos : Vec3) (rot : Mat3)
  | color3 (c : Color3)
  | enum (n : ℕ)
  | float (x : ℝ)
  | bool (b : Bool)
  | str (s : String)

/-- Component property values (brickadia UnrealType, the variants this
program reads). -/
inductive UnrealType where
  | float (x : ℝ)
  | boolean (b : Bool)
  | color (c : Color)

/-- Size field of a brick (brickadia Size). -/
inductive BrickSize where
  | empty
  | procedural (x y z : ℕ)

/-- Color field of a brick (brickadia BrickColor). -/
inductive BrickColor where
  | index (i : ℕ)
  | unique (c : Color)

/-- The brick fields read by the converter (brickadia Brick). -/
structure Brick where
  asset_name_index : ℕ
  size : BrickSize
  position : ℤ × ℤ × ℤ
  direction : ℕ
  rotation : ℕ
  color : BrickColor
  material_index : ℕ
  material_intensity : ℕ
  visibility : Bool
  collision_player : Bool
  components : List (String × List (String × UnrealType))

/-- The shared save metadata read by the converter (header2 tables). -/
structure SaveData where
  colors : List Color
  materials : List String
  brick_assets : List String

/-- An output instance: class name, instance name, ordered property
writes and child instances (rbx InstanceBuilder). -/
inductive Instance where
  | mk (className : String) (name : String)
       (properties : List (String × Variant)) (children : List Instance)

def Instance.className : Instance → String
  | .mk c _ _ _ => c

def Instance.name : Instance → String
  | .mk _ n _ _ => n

def Instance.properties : Instance → List (String × Variant)
  | .mk _ _ p _ => p

def Instance.children : Instance → List Instance
  | .mk _ _ _ ch => ch

/-- InstanceBuilder::with_name. -/
def Instance.setName : Instance → String → Instance
  | .mk c _ p ch, n => .mk c n p ch

/-- Homogeneous 4x4 affine transform (cframe.rs CoordinateFrame), with
the row-major entries of the matrix field spelled out. -/
structure CoordinateFrame where
  m00 : ℝ
  m01 : ℝ
  m02 : ℝ
  m03 : ℝ
  m10 : ℝ
  m11 : ℝ
  m12 : ℝ
  m13 : ℝ
  m20 : ℝ
  m21 : ℝ
  m22 : ℝ
  m23 : ℝ
  m30 : ℝ
  m31 : ℝ
  m32 : ℝ
  m33 : ℝ

attribute [ext] CoordinateFrame

namespace CoordinateFrame

/-- Default::default for CoordinateFrame: the identity matrix. -/
def default : CoordinateFrame :=
  ⟨1, 0, 0, 0,
   0, 1, 0, 0,
   0, 0, 1, 0,
   0, 0, 0, 1⟩

/-- CoordinateFrame::new, a pure translation. -/
def new (x y z : ℝ) : CoordinateFrame :=
  ⟨1, 0, 0, x,
   0, 1, 0, y,
   0, 0, 1, z,
   0, 0, 0, 1⟩

/-- CoordinateFrame::rx, rotation about the x axis. -/
def rx (angle : ℝ) : CoordinateFrame :=
  ⟨1, 0, 0, 0,
   0, Real.cos angle, -Real.sin angle, 0,
   0, Real.sin angle, Real.cos angle, 0,
   0, 0, 0, 1⟩

/-- CoordinateFrame::ry, rotation about the y axis. -/
def ry (angle : ℝ) : CoordinateFrame :=
  ⟨Real.cos angle, 0, Real.sin angle, 0,
   0, 1, 0, 0,
   -Real.sin angle, 0, Real.cos angle, 0,
   0, 0, 0, 1⟩

/-- CoordinateFrame::rz, rotation about the z axis. -/
def rz (angle : ℝ) : CoordinateFrame :=
  ⟨Real.cos angle, -Real.sin angle, 0, 0,
   Real.sin angle, Real.cos angle, 0, 0,
   0, 0, 1, 0,
   0, 0, 0, 1⟩

/-- Mul for CoordinateFrame: the 4x4 matrix product, with the source's
triple loop (matrix[i][j] += a[i][k] * b[k][j]) unrolled. -/
def mul (a b : CoordinateFrame) : CoordinateFrame :=
  ⟨a.m00 * b.m00 + a.m01 * b.m10 + a.m02 * b.m20 + a.m03 * b.m30,
   a.m00 * b.m01 + a.m01 * b.m11 + a.m02 * b.m21 + a.m03 * b.m31,
   a.m00 * b.m02 + a.m01 * b.m12 + a.m02 * b.m22 + a.m03 * b.m32,
   a.m00 * b.m03 + a.m01 * b.m13 + a.m02 * b.m23 + a.m03 * b.m33,
   a.m10 * b.m00 + a.m11 * b.m10 + a.m12 * b.m20 + a.m13 * b.m30,
   a.m10 * b.m01 + a.m11 * b.m11 + a.m12 * b.m21 + a.m13 * b.m31,
   a.m10 * b.m02 + a.m11 * b.m12 + a.m12 * b.m22 + a.m13 * b.m32,
   a.m10 * b.m03 + a.m11 * b.m13 + a.m12 * b.m23 + a.m13 * b.m33,
   a.m20 * b.m00 + a.m21 * b.m10 + a.m22 * b.m20 + a.m23 * b.m30,
   a.m20 * b.m01 + a.m21 * b.m11 + a.m22 * b.m21 + a.m23 * b.m31,
   a.m20 * b.m02 + a.m21 * b.m12 + a.m22 * b.m22 + a.m23 * b.m32,
   a.m20 * b.m03 + a.m21 * b.m13 + a.m22 * b.m23 + a.m23 * b.m33,
   a.m30 * b.m00 + a.m31 * b.m10 + a.m32 * b.m20 + a.m33 * b.m30,
   a.m30 * b.m01 + a.m31 * b.m11 + a.m32 * b.m21 + a.m33 * b.m31,
   a.m30 * b.m02 + a.m31 * b.m12 + a.m32 * b.m22 + a.m33 * b.m32,
   a.m30 * b.m03 + a.m31 * b.m13 + a.m32 * b.m23 + a.m33 * b.m33⟩

instance : Mul CoordinateFrame := ⟨mul⟩

theorem mul_def (a b : CoordinateFrame) : a * b = mul a b := rfl

/-- CoordinateFrame::angles. -/
def angles (x y z : ℝ) : CoordinateFrame := rz z * ry y * rx x

/-- CoordinateFrame::position, the translation column. -/
def position (cf : CoordinateFrame) : Vec3 := ⟨cf.m03, cf.m13, cf.m23⟩

/-- CoordinateFrame::rotation_matrix, the upper-left 3x3 block as rows. -/
def rotation_matrix (cf : CoordinateFrame) : Mat3 :=
  ⟨⟨cf.m00, cf.m01, cf.m02⟩, ⟨cf.m10, cf.m11, cf.m12⟩, ⟨cf.m20, cf.m21, cf.m22⟩⟩

end CoordinateFrame

/-- A 9-entry row-major rotation matrix, one entry of the orientation
table ([f32; 9] in the source). -/
structure Rot9 where
  e0 : ℝ
  e1 : ℝ
  e2 : ℝ
  e3 : ℝ
  e4 : ℝ
  e5 : ℝ
  e6 : ℝ
  e7 : ℝ
  e8 : ℝ

/-- The rm! macro: builds a row-major rotation matrix from a
right/up/forward basis, negating the forward column. -/
def rm (rx ry rz ux uy uz fx fy fz : ℝ) : Rot9 :=
  ⟨rx, ux, -fx, ry, uy, -fy, rz, uz, -fz⟩

/-- CoordinateFrame::from_rotation: translation plus a 9-entry rotation
block. -/
def CoordinateFrame.from_rotation (x y z : ℝ) (rot : Rot9) : CoordinateFrame :=
  ⟨rot.e0, rot.e1, rot.e2, x,
   rot.e3, rot.e4, rot.e5, y,
   rot.e6, rot.e7, rot.e8, z,
   0, 0, 0, 1⟩

/-- ORIENTATION_MAP: the 24 rotation matrices indexed by
(direction shifted left by 2) or-ed with rotation. -/
def ORIENTATION_MAP : List Rot9 :=
  [rm 0 (-1) 0    1 0 0       0 0 (-1),
   rm 0 0 1       1 0 0       0 (-1) 0,
   rm 0 1 0       1 0 0       0 0 1,
   rm 0 0 (-1)    1 0 0       0 1 0,
   rm 0 (-1) 0    (-1) 0 0    0 0 1,
   rm 0 0 (-1)    (-1) 0 0    0 (-1) 0,
   rm 0 1 0       (-1) 0 0    0 0 (-1),
   rm 0 0 1       (-1) 0 0    0 1 0,
   rm 0 (-1) 0    0 0 1       1 0 0,
   rm (-1) 0 0    0 0 1       0 (-1) 0,
   rm 0 1 0       0 0 1       (-1) 0 0,
   rm 1 0 0       0 0 1       0 1 0,
   rm 0 (-1) 0    0 0 (-1)    (-1) 0 0,
   rm 1 0 0       0 0 (-1)    0 (-1) 0,
   rm 0 1 0       0 0 (-1)    1 0 0,
   rm (-1) 0 0    0 0 (-1)    0 1 0,
   rm (-1) 0 0    0 1 0       0 0 1,
   rm 0 0 (-1)    0 1 0       (-1) 0 0,
   rm 1 0 0       0 1 0       0 0 (-1),
   rm 0 0 1       0 1 0       1 0 0,
   rm 1 0 0       0 (-1) 0    0 0 1,
   rm 0 0 (-1)    0 (-1) 0    1 0 0,
   rm (-1) 0 0    0 (-1) 0    0 0 (-1),
   rm 0 0 1       0 (-1) 0    (-1) 0 0]

/-- linear_to_srgb: the piecewise sRGB transfer function applied to one
normalized color channel. -/
def linear_to_srgb (c : ℝ) : ℝ :=
  if c > 0.0031308 then 1.055 * c ^ ((1 : ℝ) / 2.4) - 0.055 else 12.92 * c

/-- Gamma conversion of a byte-channel color to an output Color3
(the repeated Color3::new(linear_to_srgb(..)) pattern). -/
def gammaColor (c : Color) : Color3 :=
  ⟨linear_to_srgb ((c.r : ℝ) / 255),
   linear_to_srgb ((c.g : ℝ) / 255),
   linear_to_srgb ((c.b : ℝ) / 255)⟩

/-- component_property! instantiated at UnrealType::Float: read a float
field of a component bag, falling back to a default when the key is
absent or holds another variant. -/
def component_float (component : List (String × UnrealType)) (field : String)
    (d : ℝ) : ℝ :=
  match component.lookup field with
  | some (UnrealType.float x) => x
  | _ => d

/-- component_property! instantiated at UnrealType::Boolean. -/
def component_bool (component : List (String × UnrealType)) (field : String)
    (d : Bool) : Bool :=
  match component.lookup field with
  | some (UnrealType.boolean b) => b
  | _ => d

/-- component_property! instantiated at UnrealType::Color. -/
def component_color (component : List (String × UnrealType)) (field : String)
    (d : Color) : Color :=
  match component.lookup field with
  | some (UnrealType.color c) => c
  | _ => d

/-- PartDef: in-progress description of one output primitive. -/
structure PartDef where
  className : String
  offset : CoordinateFrame
  size : Vec3
  color : Option Color
  properties : List (String × Variant)

namespace PartDef

/-- Default::default for PartDef. -/
def default : PartDef := ⟨"Part", CoordinateFrame.default, ⟨0, 0, 0⟩, none, []⟩

/-- PartDef::new. -/
def new (c : String) : PartDef := ⟨c, CoordinateFrame.default, ⟨0, 0, 0⟩, none, []⟩

/-- PartDef::cf: compose a transform onto the local offset (on the
right). -/
def cf (pd : PartDef) (c : CoordinateFrame) : PartDef :=
  ⟨pd.className, pd.offset * c, pd.size, pd.color, pd.properties⟩

/-- PartDef::offset: compose a translation onto the local offset. -/
def withOffset (pd : PartDef) (x y z : ℝ) : PartDef :=
  pd.cf (CoordinateFrame.new x y z)

/-- PartDef::size. -/
def withSize (pd : PartDef) (x y z : ℝ) : PartDef :=
  ⟨pd.className, pd.offset, ⟨x, y, z⟩, pd.color, pd.properties⟩

/-- PartDef::color. -/
def withColor (pd : PartDef) (c : Color) : PartDef :=
  ⟨pd.className, pd.offset, pd.size, some c, pd.properties⟩

/-- PartDef::property. -/
def withProperty (pd : PartDef) (k : String) (v : Variant) : PartDef :=
  ⟨pd.className, pd.offset, pd.size, pd.color, pd.properties ++ [(k, v)]⟩

end PartDef

/-- The color resolution step of to_instance: explicit override, else the
palette entry at the brick's color index (out-of-range index = panic =
none), else the brick's literal color. -/
def resolve_color (pd : PartDef) (save : SaveData) (brick : Brick) : Option Color :=
  match pd.color with
  | some c => some c
  | none =>
    match brick.color with
    | BrickColor.index idx => save.colors[idx]?
    | BrickColor.unique c => some c

/-- The material/visibility step of to_instance: the properties written
by the material match when the brick is visible (out-of-range material
index = panic = none), else a full-transparency write. -/
def material_props (save : SaveData) (brick : Brick) : Option (List (String × Variant)) :=
  if brick.visibility then
    match save.materials[brick.material_index]? with
    | none => none
    | some mat =>
      some (match mat with
        | "BMC_Ghost" | "BMC_Ghost_Fail" =>
          [("Material", Variant.enum 288), ("Transparency", Variant.float 0.5)]
        | "BMC_Glow" => [("Material", Variant.enum 288)]
        | "BMC_Metallic" => [("Material", Variant.enum 1088)]
        | "BMC_Hologram" => [("Material", Variant.enum 1584)]
        | "BMC_Glass" =>
          [("Transparency", Variant.float (1 - (brick.material_intensity : ℝ) / 10))]
        | _ => [])
  else some [("Transparency", Variant.float 1)]

/-- The component step of to_instance: when the brick carries a
BCD_PointLight component, synthesize one PointLight child; indexing the
bag with a missing bUseBrickColor key is a panic (none). -/
def light_children (brick : Brick) (color_value : Color3) : Option (List Instance) :=
  match brick.components.lookup "BCD_PointLight" with
  | some component =>
    match component.lookup "bUseBrickColor" with
    | none => none
    | some v =>
      let lightColor : Color3 :=
        match v with
        | UnrealType.boolean true => color_value
        | _ => gammaColor (component_color component "Color" ⟨255, 255, 255, 255⟩)
      some [Instance.mk "PointLight" "PointLight"
        [("Brightness", Variant.float (component_float component "Brightness" 10 / 10)),
         ("Range", Variant.float (component_float component "Range" 100 / 10)),
         ("Shadows", Variant.bool (component_bool component "bCastShadows" false)),
         ("Color", Variant.color3 lightColor)] []]
  | none => some []

/-- PartDef::to_instance: resolve the PartDef against the brick's global
placement and the save metadata into one output instance. Panics of the
source (table indexing, missing component key) surface as none. -/
def PartDef.to_instance (pd : PartDef) (save : SaveData) (brick : Brick) :
    Option Instance := do
  let mat_comp ← ORIENTATION_MAP[(brick.direction <<< 2) ||| brick.rotation]?
  let cfr := CoordinateFrame.from_rotation ((brick.position.1 : ℝ) / 10)
    ((brick.position.2.2 : ℝ) / 10) ((brick.position.2.1 : ℝ) / 10) mat_comp * pd.offset
  let color ← resolve_color pd save brick
  let color_value := gammaColor color
  let mp ← material_props save brick
  let collisionProps : List (String × Variant) :=
    if brick.collision_player then [] else [("CanCollide", Variant.bool false)]
  let children ← light_children brick color_value
  pure (Instance.mk pd.className pd.className
    ([("Size", Variant.vec3 pd.size),
      ("CFrame", Variant.cframe cfr.position cfr.rotation_matrix),
      ("Color", Variant.color3 color_value)]
      ++ mp ++ collisionProps
      ++ [("Anchored", Variant.bool true)] ++ pd.properties)
    children)

/-- The normalized size computed at the top of convert_brick: the empty
marker becomes (0,0,0), procedural sizes are divided by the grid scale 5. -/
def normalizedSize : BrickSize → ℝ × ℝ × ℝ
  | BrickSize.empty => (0, 0, 0)
  | BrickSize.procedural x y z => ((x : ℝ) / 5, (y : ℝ) / 5, (z : ℝ) / 5)

/-- The decomposition rule table of convert_brick: asset identifier and
normalized size to the list of PartDefs of the match arms, or none for
an unrecognized identifier. -/
def convert_rule (asset : String) (size : ℝ × ℝ × ℝ) : Option (List PartDef) :=
  if asset = "PB_DefaultBrick" then
    some [PartDef.default |>.withSize size.1 size.2.2 size.2.1]
  else if asset = "PB_DefaultTile" then
    some [PartDef.default |>.withSize size.1 size.2.2 size.2.1
      |>.withProperty "TopSurface" (Variant.enum 0)]
  else if asset = "PB_DefaultRamp" then
    some [PartDef.new "Part" |>.withSize 1 size.2.2 size.2.1
            |>.withOffset (size.1 / 2 - 0.5) 0 0,
          PartDef.new "WedgePart"
            |>.withSize size.2.1 (size.2.2 - 0.2) (size.1 - 1)
            |>.withOffset (-0.5) 0.1 0
            |>.cf (CoordinateFrame.ry (Real.pi * 0.5)),
          PartDef.new "Part" |>.withSize (size.1 - 1) 0.2 size.2.1
            |>.withOffset (-0.5) (-(size.2.2 / 2) + 0.1) 0]
  else if asset = "PB_DefaultRampInverted" then
    some [PartDef.new "Part" |>.withSize 1 size.2.2 size.2.1
            |>.withOffset (size.1 / 2 - 0.5) 0 0,
          PartDef.new "WedgePart"
            |>.withSize size.2.1 (size.2.2 - 0.2) (size.1 - 1)
            |>.withOffset (-0.5) (-0.1) 0
            |>.cf (CoordinateFrame.rx Real.pi)
            |>.cf (CoordinateFrame.ry (Real.pi * 0.5)),
          PartDef.new "Part" |>.withSize (size.1 - 1) 0.2 size.2.1
            |>.withOffset (-0.5) (size.2.2 / 2 - 0.1) 0]
  else if asset = "PB_DefaultWedge" then
    some [PartDef.new "WedgePart"
            |>.withSize size.2.1 (size.2.2 - 0.2) size.1
            |>.withOffset 0 0.1 0
            |>.cf (CoordinateFrame.ry (Real.pi * 0.5)),
          PartDef.new "Part" |>.withSize size.2.1 0.2 size.1
            |>.withOffset 0 (-(size.2.2 / 2) + 0.1) 0
            |>.cf (CoordinateFrame.ry (Real.pi * 0.5))]
  else if asset = "PB_DefaultSideWedge" then
    some [PartDef.new "WedgePart" |>.withSize size.2.2 size.1 size.2.1
      |>.cf (CoordinateFrame.rz (Real.pi * 0.5))
      |>.withProperty "TopSurface" (Variant.enum 0)
      |>.withProperty "BottomSurface" (Variant.enum 0)
      |>.withProperty "LeftSurface" (Variant.enum 4)
      |>.withProperty "RightSurface" (Variant.enum 3)]
  else if asset = "PB_DefaultSideWedgeTile" then
    some [PartDef.new "WedgePart" |>.withSize size.2.2 size.1 size.2.1
      |>.cf (CoordinateFrame.rz (Real.pi * 0.5))
      |>.withProperty "TopSurface" (Variant.enum 0)
      |>.withProperty "BottomSurface" (Variant.enum 0)
      |>.withProperty "LeftSurface" (Variant.enum 4)
      |>.withProperty "RightSurface" (Variant.enum 0)]
  else if asset = "PB_DefaultMicroBrick" then
    some [PartDef.new "Part" |>.withSize size.1 size.2.2 size.2.1
      |>.withProperty "TopSurface" (Variant.enum 0)
      |>.withProperty "BottomSurface" (Variant.enum 0)]
  else if asset = "PB_DefaultMicroWedge" then
    some [PartDef.new "WedgePart" |>.withSize size.2.2 size.2.1 size.1
      |>.cf (CoordinateFrame.rz (Real.pi * 0.5))
      |>.cf (CoordinateFrame.rx (-Real.pi * 0.5))
      |>.cf (CoordinateFrame.ry Real.pi)
      |>.withProperty "BottomSurface" (Variant.enum 0)]
  else if asset = "PB_DefaultMicroWedgeInnerCorner" then
    some [PartDef.new "WedgePart" |>.withSize size.1 size.2.2 size.2.1
            |>.cf (CoordinateFrame.ry (Real.pi * 0.5))
            |>.withProperty "BottomSurface" (Variant.enum 0),
          PartDef.new "WedgePart" |>.withSize size.2.1 size.2.2 size.1
            |>.withProperty "BottomSurface" (Variant.enum 0)]
  else if asset = "B_2x2_Round" then
    some [PartDef.new "Part" |>.withSize 1.2 2 2
      |>.cf (CoordinateFrame.rz (Real.pi * 0.5))
      |>.withProperty "Shape" (Variant.enum 2)
      |>.withProperty "TopSurface" (Variant.enum 0)
      |>.withProperty "BottomSurface" (Variant.enum 0)
      |>.withProperty "LeftSurface" (Variant.enum 4)
      |>.withProperty "RightSurface" (Variant.enum 3)]
  else if asset = "B_2x2F_Round" then
    some [PartDef.new "Part" |>.withSize 0.4 2 2
      |>.cf (CoordinateFrame.rz (Real.pi * 0.5))
      |>.withProperty "Shape" (Variant.enum 2)
      |>.withProperty "TopSurface" (Variant.enum 0)
      |>.withProperty "BottomSurface" (Variant.enum 0)
      |>.withProperty "LeftSurface" (Variant.enum 4)
      |>.withProperty "RightSurface" (Variant.enum 3)]
  else if asset = "B_1x1_Round" ∨ asset = "B_1x1_Cone" then
    some [PartDef.new "Part" |>.withSize 1.2 1 1
      |>.cf (CoordinateFrame.rz (Real.pi * 0.5))
      |>.withProperty "Shape" (Variant.enum 2)
      |>.withProperty "TopSurface" (Variant.enum 0)
      |>.withProperty "BottomSurface" (Variant.enum 0)
      |>.withProperty "LeftSurface" (Variant.enum 4)
      |>.withProperty "RightSurface" (Variant.enum 3)]
  else if asset = "B_1x1F_Round" then
    some [PartDef.new "Part" |>.withSize 1.2 1 1
      |>.cf (CoordinateFrame.rz (Real.pi * 0.5))
      |>.withProperty "Shape" (Variant.enum 2)
      |>.withProperty "TopSurface" (Variant.enum 0)
      |>.withProperty "BottomSurface" (Variant.enum 0)
      |>.withProperty "LeftSurface" (Variant.enum 4)
      |>.withProperty "RightSurface" (Variant.enum 3)]
  else none

/-- The asset identifiers for which convert_brick has a decomposition
rule (the keys of the match in convert_brick). -/
def ruleAssets : List String :=
  ["PB_DefaultBrick", "PB_DefaultTile", "PB_DefaultRamp",
   "PB_DefaultRampInverted", "PB_DefaultWedge", "PB_DefaultSideWedge",
   "PB_DefaultSideWedgeTile", "PB_DefaultMicroBrick", "PB_DefaultMicroWedge",
   "PB_DefaultMicroWedgeInnerCorner", "B_2x2_Round", "B_2x2F_Round",
   "B_1x1_Round", "B_1x1_Cone", "B_1x1F_Round"]

/-- Resolve a list of PartDefs in order, propagating the first panic. -/
def mapOption {α β : Type} (f : α → Option β) : List α → Option (List β)
  | [] => some []
  | x :: xs => do
    let y ← f x
    let ys ← mapOption f xs
    pure (y :: ys)

/-- convert_brick: look up the brick's asset identifier (out-of-range
asset index = panic = outer none), select a rule, and resolve its
PartDefs. `some none` is the explicit "no mapping" result of the source
(its return value None). -/
def convert_brick (brick : Brick) (save : SaveData) :
    Option (Option (List Instance)) := do
  let asset ← save.brick_assets[brick.asset_name_index]?
  let size := normalizedSize brick.size
  match convert_rule asset size with
  | none => pure none
  | some defs => do
    let instances ← mapOption (fun pd => pd.to_instance save brick) defs
    pure (some instances)

/-- The display name main gives each brick's output. -/
def brickName (asset : String) (brick : Brick) : String :=
  asset ++ " (dir " ++ toString brick.direction ++ ", rot " ++
    toString brick.rotation ++ ")"

/-- One iteration of main's per-brick loop: `some none` means the brick
was reported as unconvertible and contributes no child; a single
instance is renamed, several are grouped under a Model. -/
def brickChild (brick : Brick) (save : SaveData) : Option (Option Instance) := do
  let asset ← save.brick_assets[brick.asset_name_index]?
  let name := brickName asset brick
  let conv ← convert_brick brick save
  match conv with
  | none => pure none
  | some instances =>
    match instances with
    | [single] => pure (some (single.setName name))
    | _ => pure (some (Instance.mk "Model" name [] instances))

/-- main's loop over the save's bricks, collecting the children added to
the output model in order. -/
def processBricks : List Brick → SaveData → Option (List Instance)
  | [], _ => pure []
  | brick :: rest, save => do
    let child ← brickChild brick save
    let others ← processBricks rest save
    match child with
    | none => pure others
    | some c => pure (c :: others)

/-! Helper lemmas about the CoordinateFrame algebra. -/

theorem default_mul (a : CoordinateFrame) : CoordinateFrame.default * a = a := by
  ext <;> simp [CoordinateFrame.mul_def, CoordinateFrame.mul, CoordinateFrame.default]

theorem mul_default (a : CoordinateFrame) : a * CoordinateFrame.default = a := by
  ext <;> simp [CoordinateFrame.mul_def, CoordinateFrame.mul, CoordinateFrame.default]

theorem cf_mul_assoc (a b c : CoordinateFrame) : a * b * c = a * (b * c) := by
  ext <;> simp [CoordinateFrame.mul_def, CoordinateFrame.mul] <;> ring

/-- Transforms built from the primitive constructors of cframe.rs (the
default identity, translations, axis rotations) and their compositions. -/
inductive Built : CoordinateFrame → Prop
  | default : Built CoordinateFrame.default
  | new (x y z : ℝ) : Built (CoordinateFrame.new x y z)
  | rx (angle : ℝ) : Built (CoordinateFrame.rx angle)
  | ry (angle : ℝ) : Built (CoordinateFrame.ry angle)
  | rz (angle : ℝ) : Built (CoordinateFrame.rz angle)
  | mul (a b : CoordinateFrame) : Built a → Built b → Built (a * b)

/-- Claim C7: for all CoordinateFrame values built from the primitive
constructors, composition via Mul is associative, and the default
identity frame is a two-sided identity for composition (proved as exact
equalities, which subsume equality within floating tolerance). -/
theorem c7_compose_assoc_identity :
    (∀ A B C : CoordinateFrame, Built A → Built B → Built C →
      (A * B) * C = A * (B * C)) ∧
    (∀ T : CoordinateFrame, Built T →
      CoordinateFrame.default * T = T ∧ T * CoordinateFrame.default = T) :=
  ⟨fun A B C _ _ _ => cf_mul_assoc A B C,
   fun T _ => ⟨default_mul T, mul_default T⟩⟩

/-- Witness for C7 at concrete primitive transforms. -/
theorem c7_compose_assoc_identity_witness :
    ((CoordinateFrame.new 1 2 3 * CoordinateFrame.rx 0) * CoordinateFrame.default =
      CoordinateFrame.new 1 2 3 * (CoordinateFrame.rx 0 * CoordinateFrame.default)) ∧
    (CoordinateFrame.default * CoordinateFrame.ry 1 = CoordinateFrame.ry 1 ∧
      CoordinateFrame.ry 1 * CoordinateFrame.default = CoordinateFrame.ry 1) :=
  ⟨c7_compose_assoc_identity.1 _ _ _ (Built.new 1 2 3) (Built.rx 0) Built.default,
   c7_compose_assoc_identity.2 _ (Built.ry 1)⟩

/-- Claim C8: every instance produced by to_instance carries the
property write Anchored = true, for every PartDef and every brick. -/
theorem c8_anchored (pd : PartDef) (save : SaveData) (brick : Brick) (inst : Instance)
    (h : pd.to_instance save brick = some inst) :
    ("Anchored", Variant.bool true) ∈ inst.properties := by
  simp only [PartDef.to_instance, bind, Option.bind_eq_some, pure] at h
  obtain ⟨mc, hmc, color, hcolor, mp, hmp, ch, hch, h⟩ := h
  rw [Option.some_inj] at h
  subst h
  simp [Instance.properties]

/-- Sample save metadata: a one-entry palette, material table and asset
table. -/
def saveOk : SaveData := ⟨[⟨255, 128, 0, 255⟩], ["BMC_Plastic"], ["PB_DefaultBrick"]⟩

/-- Sample brick: default cuboid, direction 0, rotation 0, origin,
procedural size 10x10x10, palette color 0, no components. -/
def brickOk : Brick :=
  ⟨0, BrickSize.procedural 10 10 10, (0, 0, 0), 0, 0, BrickColor.index 0,
   0, 0, true, true, []⟩

/-- Witness for C8 at a concrete PartDef, save and brick. -/
theorem c8_anchored_witness :
    ∃ i, PartDef.default.to_instance saveOk brickOk = some i ∧
      ("Anchored", Variant.bool true) ∈ i.properties :=
  ⟨_, rfl, c8_anchored PartDef.default saveOk brickOk _ rfl⟩

/-! Helper lemmas about the color transfer function. -/

theorem srgb_pow_lower {c : ℝ} (hc : 1 / 255 ≤ c) :
    (0.055 : ℝ) ≤ 1.055 * c ^ ((1 : ℝ) / 2.4) := by
  have h1 : ((1 : ℝ) / 255) ^ ((1 : ℝ) / 2.4) ≤ c ^ ((1 : ℝ) / 2.4) :=
    Real.rpow_le_rpow (by norm_num) hc (by norm_num)
  have h2 : ((1 : ℝ) / 255) ^ ((1 : ℝ) / 2) ≤ ((1 : ℝ) / 255) ^ ((1 : ℝ) / 2.4) :=
    Real.rpow_le_rpow_of_exponent_ge (by norm_num) (by norm_num) (by norm_num)
  have h3 : (0.0522 : ℝ) ≤ ((1 : ℝ) / 255) ^ ((1 : ℝ) / 2) := by
    rw [← Real.sqrt_eq_rpow, Real.le_sqrt (by norm_num) (by norm_num)]
    norm_num
  nlinarith [h1, h2, h3]

theorem srgb_branch_of_one_le {n : ℕ} (h1 : 1 ≤ n) :
    (0.0031308 : ℝ) < (n : ℝ) / 255 := by
  have : (1 : ℝ) ≤ (n : ℝ) := by exact_mod_cast h1
  linarith

theorem srgb_nonneg (n : ℕ) : 0 ≤ linear_to_srgb ((n : ℝ) / 255) := by
  rcases Nat.eq_zero_or_pos n with h0 | h1
  · subst h0
    rw [linear_to_srgb, if_neg (by norm_num)]
    norm_num
  · rw [linear_to_srgb, if_pos (srgb_branch_of_one_le h1)]
    have hc : (1 : ℝ) / 255 ≤ (n : ℝ) / 255 := by
      have : (1 : ℝ) ≤ (n : ℝ) := by exact_mod_cast h1
      linarith
    have := srgb_pow_lower hc
    linarith

theorem srgb_le_one (n : ℕ) (hn : n ≤ 255) : linear_to_srgb ((n : ℝ) / 255) ≤ 1 := by
  have hc1 : (n : ℝ) / 255 ≤ 1 := by
    have : (n : ℝ) ≤ 255 := by exact_mod_cast hn
    linarith
  have hc0 : (0 : ℝ) ≤ (n : ℝ) / 255 := by positivity
  rw [linear_to_srgb]
  split_ifs with h
  · have := Real.rpow_le_one hc0 hc1 (by norm_num : (0 : ℝ) ≤ 1 / 2.4)
    linarith
  · push_neg at h
    linarith

theorem srgb_mono (n m : ℕ) (hnm : n ≤ m) :
    linear_to_srgb ((n : ℝ) / 255) ≤ linear_to_srgb ((m : ℝ) / 255) := by
  rcases Nat.eq_zero_or_pos n with h0 | h1
  · subst h0
    have : linear_to_srgb (((0 : ℕ) : ℝ) / 255) = 0 := by
      rw [linear_to_srgb, if_neg (by norm_num)]
      norm_num
    rw [this]
    exact srgb_nonneg m
  · have hm1 : 1 ≤ m := le_trans h1 hnm
    rw [linear_to_srgb, if_pos (srgb_branch_of_one_le h1),
      linear_to_srgb, if_pos (srgb_branch_of_one_le hm1)]
    have hle : (n : ℝ) / 255 ≤ (m : ℝ) / 255 := by
      have : (n : ℝ) ≤ (m : ℝ) := by exact_mod_cast hnm
      linarith
    have := Real.rpow_le_rpow (by positivity) hle (by norm_num : (0 : ℝ) ≤ 1 / 2.4)
    nlinarith [this]

/-- Claim C5: for integer channel inputs 0..255 with c = n/255,
linear_to_srgb c lies in the unit interval, is monotonic non-decreasing
in n, and follows the piecewise sRGB transfer of the source (linear
scale 12.92 at or below the 0.0031308 threshold, else the 2.4-root
power law). -/
theorem c5_linear_to_srgb_range_mono (n m : ℕ) (hn : n ≤ 255) (hm : m ≤ 255)
    (hnm : n ≤ m) :
    (0 ≤ linear_to_srgb ((n : ℝ) / 255) ∧ linear_to_srgb ((n : ℝ) / 255) ≤ 1) ∧
    linear_to_srgb ((n : ℝ) / 255) ≤ linear_to_srgb ((m : ℝ) / 255) ∧
    ((n : ℝ) / 255 ≤ 0.0031308 →
      linear_to_srgb ((n : ℝ) / 255) = 12.92 * ((n : ℝ) / 255)) ∧
    (0.0031308 < (n : ℝ) / 255 →
      linear_to_srgb ((n : ℝ) / 255) =
        1.055 * ((n : ℝ) / 255) ^ ((1 : ℝ) / 2.4) - 0.055) := by
  refine ⟨⟨srgb_nonneg n, srgb_le_one n hn⟩, srgb_mono n m hnm, ?_, ?_⟩
  · intro h
    rw [linear_to_srgb, if_neg (not_lt.mpr h)]
  · intro h
    rw [linear_to_srgb, if_pos h]

/-- Witness for C5 at channel inputs 0 and 255. -/
theorem c5_linear_to_srgb_range_mono_witness :
    (0 ≤ linear_to_srgb (((0 : ℕ) : ℝ) / 255) ∧
      linear_to_srgb (((0 : ℕ) : ℝ) / 255) ≤ 1) ∧
    linear_to_srgb (((0 : ℕ) : ℝ) / 255) ≤ linear_to_srgb (((255 : ℕ) : ℝ) / 255) ∧
    (((0 : ℕ) : ℝ) / 255 ≤ 0.0031308 →
      linear_to_srgb (((0 : ℕ) : ℝ) / 255) = 12.92 * (((0 : ℕ) : ℝ) / 255)) ∧
    (0.0031308 < ((0 : ℕ) : ℝ) / 255 →
      linear_to_srgb (((0 : ℕ) : ℝ) / 255) =
        1.055 * (((0 : ℕ) : ℝ) / 255) ^ ((1 : ℝ) / 2.4) - 0.055) :=
  c5_linear_to_srgb_range_mono 0 255 (by norm_num) (by norm_num) (by norm_num)

/-! Helper lemmas about the rule table and the conversion loop. -/

theorem convert_rule_none {asset : String} (size : ℝ × ℝ × ℝ)
    (h : asset ∉ ruleAssets) : convert_rule asset size = none := by
  simp only [ruleAssets, List.mem_cons, List.not_mem_nil, or_false, not_or] at h
  obtain ⟨h1, h2, h3, h4, h5, h6, h7, h8, h9, h10, h11, h12, h13, h14, h15⟩ := h
  rw [convert_rule, if_neg h1, if_neg h2, if_neg h3, if_neg h4, if_neg h5, if_neg h6,
    if_neg h7, if_neg h8, if_neg h9, if_neg h10, if_neg h11, if_neg h12,
    if_neg (not_or.mpr ⟨h13, h14⟩), if_neg h15]

theorem brickChild_unmapped {bad : Brick} {save : SaveData}
    (h : convert_brick bad save = some none) : brickChild bad save = some none := by
  rcases ha : save.brick_assets[bad.asset_name_index]? with _ | asset
  · rw [convert_brick] at h
    rw [ha] at h
    simp at h
  · simp [brickChild, ha, h]

/-- Claim C6: a brick whose asset identifier has no rule makes
convert_brick return the explicit "no mapping" value (inner none)
without a panic, and the loop skips exactly that brick, leaving the
output of every other brick unchanged. -/
theorem c6_unmapped_nonfatal :
    (∀ (brick : Brick) (save : SaveData) (asset : String),
      save.brick_assets[brick.asset_name_index]? = some asset →
      asset ∉ ruleAssets → convert_brick brick save = some none) ∧
    (∀ (xs ys : List Brick) (bad : Brick) (save : SaveData),
      convert_brick bad save = some none →
      processBricks (xs ++ bad :: ys) save = processBricks (xs ++ ys) save) := by
  constructor
  · intro brick save asset ha hmem
    simp [convert_brick, ha, convert_rule_none _ hmem]
  · intro xs ys bad save h
    induction xs with
    | nil => simp [processBricks, brickChild_unmapped h]
    | cons x xs ih => simp [processBricks, List.cons_append, ih]

/-- Sample metadata whose asset table contains an identifier with no
decomposition rule. -/
def saveU : SaveData := ⟨[⟨1, 1, 1, 255⟩], ["BMC_Plastic"], ["PB_Spaceship"]⟩

/-- Sample brick referencing the unmapped asset identifier. -/
def brickU : Brick :=
  ⟨0, BrickSize.procedural 10 10 10, (0, 0, 0), 0, 0, BrickColor.index 0,
   0, 0, true, true, []⟩

/-- Witness for C6 at a concrete unmapped brick. -/
theorem c6_unmapped_nonfatal_witness :
    convert_brick brickU saveU = some none ∧
    processBricks [brickU] saveU = processBricks [] saveU :=
  ⟨c6_unmapped_nonfatal.1 brickU saveU "PB_Spaceship" rfl (by decide),
   c6_unmapped_nonfatal.2 [] [] brickU saveU rfl⟩

/-! Helper lemmas evaluating the local offsets built by the
decomposition rules. -/

theorem default_new_position (x y z : ℝ) :
    (CoordinateFrame.default * CoordinateFrame.new x y z).position = ⟨x, y, z⟩ := by
  rw [default_mul]
  rfl

theorem default_new_ry_position (x y z θ : ℝ) :
    ((CoordinateFrame.default * CoordinateFrame.new x y z) *
      CoordinateFrame.ry θ).position = ⟨x, y, z⟩ := by
  rw [default_mul]
  simp [CoordinateFrame.mul_def, CoordinateFrame.mul, CoordinateFrame.new,
    CoordinateFrame.ry, CoordinateFrame.position]

theorem default_new_ry_r0 (x y z θ : ℝ) :
    ((CoordinateFrame.default * CoordinateFrame.new x y z) *
      CoordinateFrame.ry θ).rotation_matrix.r0 = ⟨Real.cos θ, 0, Real.sin θ⟩ := by
  rw [default_mul]
  simp [CoordinateFrame.mul_def, CoordinateFrame.mul, CoordinateFrame.new,
    CoordinateFrame.ry, CoordinateFrame.rotation_matrix]

theorem default_new_rx_ry_position (x y z θ φ : ℝ) :
    (((CoordinateFrame.default * CoordinateFrame.new x y z) *
      CoordinateFrame.rx θ) * CoordinateFrame.ry φ).position = ⟨x, y, z⟩ := by
  rw [default_mul]
  simp [CoordinateFrame.mul_def, CoordinateFrame.mul, CoordinateFrame.new,
    CoordinateFrame.rx, CoordinateFrame.ry, CoordinateFrame.position]

theorem default_new_rx_ry_r0 (x y z θ φ : ℝ) :
    (((CoordinateFrame.default * CoordinateFrame.new x y z) *
      CoordinateFrame.rx θ) * CoordinateFrame.ry φ).rotation_matrix.r0 =
      ⟨Real.cos φ, 0, Real.sin φ⟩ := by
  rw [default_mul]
  simp [CoordinateFrame.mul_def, CoordinateFrame.mul, CoordinateFrame.new,
    CoordinateFrame.rx, CoordinateFrame.ry, CoordinateFrame.rotation_matrix]

theorem cos_pi_half : Real.cos (Real.pi * 0.5) = 0 := by
  rw [show Real.pi * 0.5 = Real.pi / 2 by ring]
  exact Real.cos_pi_div_two

theorem sin_pi_half : Real.sin (Real.pi * 0.5) = 1 := by
  rw [show Real.pi * 0.5 = Real.pi / 2 by ring]
  exact Real.sin_pi_div_two

/-- Claim C2: for every normalized size with sx at least 1 and sz at
least 0.2, the multi-part rules tile the parent extent exactly: the
ramp rules' 1-wide cap spans [sx/2-1, sx/2] along x, their (sx-1)-long
wedge (local z mapped onto world x by its quarter-turn) spans
[-sx/2, sx/2-1], so the two spans meet at sx/2-1 with no gap or
overlap, and vertically the wedge height (sz-0.2) plus the 0.2-thick
base segment sum to sz, for the wedge rule as well. -/
theorem c2_ramp_wedge_tiling (sx sy sz : ℝ) (hsx : 1 ≤ sx) (hsz : 0.2 ≤ sz) :
    (∃ p1 p2 p3, convert_rule "PB_DefaultRamp" (sx, sy, sz) = some [p1, p2, p3] ∧
      p1.size.x = 1 ∧
      p1.offset.position.x - p1.size.x / 2 = sx / 2 - 1 ∧
      p1.offset.position.x + p1.size.x / 2 = sx / 2 ∧
      p2.size.z = sx - 1 ∧
      p2.offset.rotation_matrix.r0 = ⟨0, 0, 1⟩ ∧
      p2.offset.position.x - p2.size.z / 2 = -(sx / 2) ∧
      p2.offset.position.x + p2.size.z / 2 = sx / 2 - 1 ∧
      p2.size.y = sz - 0.2 ∧ p3.size.y = 0.2 ∧ p2.size.y + p3.size.y = sz) ∧
    (∃ p1 p2 p3,
      convert_rule "PB_DefaultRampInverted" (sx, sy, sz) = some [p1, p2, p3] ∧
      p1.size.x = 1 ∧
      p1.offset.position.x - p1.size.x / 2 = sx / 2 - 1 ∧
      p1.offset.position.x + p1.size.x / 2 = sx / 2 ∧
      p2.size.z = sx - 1 ∧
      p2.offset.rotation_matrix.r0 = ⟨0, 0, 1⟩ ∧
      p2.offset.position.x - p2.size.z / 2 = -(sx / 2) ∧
      p2.offset.position.x + p2.size.z / 2 = sx / 2 - 1 ∧
      p2.size.y = sz - 0.2 ∧ p3.size.y = 0.2 ∧ p2.size.y + p3.size.y = sz) ∧
    (∃ q1 q2, convert_rule "PB_DefaultWedge" (sx, sy, sz) = some [q1, q2] ∧
      q1.size.y = sz - 0.2 ∧ q2.size.y = 0.2 ∧ q1.size.y + q2.size.y = sz) := by
  refine ⟨⟨_, _, _, rfl, rfl, ?_, ?_, rfl, ?_, ?_, ?_, rfl, rfl, by show (sz - 0.2 : ℝ) + 0.2 = sz; ring⟩,
    ⟨_, _, _, rfl, rfl, ?_, ?_, rfl, ?_, ?_, ?_, rfl, rfl,
      by show (sz - 0.2 : ℝ) + 0.2 = sz; ring⟩,
    ⟨_, _, rfl, rfl, rfl, by show (sz - 0.2 : ℝ) + 0.2 = sz; ring⟩⟩
  · show ((CoordinateFrame.default *
      CoordinateFrame.new (sx / 2 - 0.5) 0 0).position).x - 1 / 2 = sx / 2 - 1
    rw [default_new_position]
    show (sx / 2 - 0.5 : ℝ) - 1 / 2 = sx / 2 - 1
    ring
  · show ((CoordinateFrame.default *
      CoordinateFrame.new (sx / 2 - 0.5) 0 0).position).x + 1 / 2 = sx / 2
    rw [default_new_position]
    show (sx / 2 - 0.5 : ℝ) + 1 / 2 = sx / 2
    ring
  · show (((CoordinateFrame.default * CoordinateFrame.new (-0.5) 0.1 0) *
      CoordinateFrame.ry (Real.pi * 0.5)).rotation_matrix).r0 = ⟨0, 0, 1⟩
    rw [default_new_ry_r0, cos_pi_half, sin_pi_half]
  · show (((CoordinateFrame.default * CoordinateFrame.new (-0.5) 0.1 0) *
      CoordinateFrame.ry (Real.pi * 0.5)).position).x - (sx - 1) / 2 = -(sx / 2)
    rw [default_new_ry_position]
    show (-0.5 : ℝ) - (sx - 1) / 2 = -(sx / 2)
    ring
  · show (((CoordinateFrame.default * CoordinateFrame.new (-0.5) 0.1 0) *
      CoordinateFrame.ry (Real.pi * 0.5)).position).x + (sx - 1) / 2 = sx / 2 - 1
    rw [default_new_ry_position]
    show (-0.5 : ℝ) + (sx - 1) / 2 = sx / 2 - 1
    ring
  · show ((CoordinateFrame.default *
      CoordinateFrame.new (sx / 2 - 0.5) 0 0).position).x - 1 / 2 = sx / 2 - 1
    rw [default_new_position]
    show (sx / 2 - 0.5 : ℝ) - 1 / 2 = sx / 2 - 1
    ring
  · show ((CoordinateFrame.default *
      CoordinateFrame.new (sx / 2 - 0.5) 0 0).position).x + 1 / 2 = sx / 2
    rw [default_new_position]
    show (sx / 2 - 0.5 : ℝ) + 1 / 2 = sx / 2
    ring
  · show ((((CoordinateFrame.default * CoordinateFrame.new (-0.5) (-0.1) 0) *
      CoordinateFrame.rx Real.pi) *
      CoordinateFrame.ry (Real.pi * 0.5)).rotation_matrix).r0 = ⟨0, 0, 1⟩
    rw [default_new_rx_ry_r0, cos_pi_half, sin_pi_half]
  · show ((((CoordinateFrame.default * CoordinateFrame.new (-0.5) (-0.1) 0) *
      CoordinateFrame.rx Real.pi) *
      CoordinateFrame.ry (Real.pi * 0.5)).position).x - (sx - 1) / 2 = -(sx / 2)
    rw [default_new_rx_ry_position]
    show (-0.5 : ℝ) - (sx - 1) / 2 = -(sx / 2)
    ring
  · show ((((CoordinateFrame.default * CoordinateFrame.new (-0.5) (-0.1) 0) *
      CoordinateFrame.rx Real.pi) *
      CoordinateFrame.ry (Real.pi * 0.5)).position).x + (sx - 1) / 2 = sx / 2 - 1
    rw [default_new_rx_ry_position]
    show (-0.5 : ℝ) + (sx - 1) / 2 = sx / 2 - 1
    ring

/-- Witness for C2 at the concrete size 3 x 1 x 2. -/
theorem c2_ramp_wedge_tiling_witness :
    (∃ p1 p2 p3,
      convert_rule "PB_DefaultRamp" ((3 : ℝ), (1 : ℝ), (2 : ℝ)) = some [p1, p2, p3] ∧
      p1.size.x = 1 ∧
      p1.offset.position.x - p1.size.x / 2 = 3 / 2 - 1 ∧
      p1.offset.position.x + p1.size.x / 2 = 3 / 2 ∧
      p2.size.z = 3 - 1 ∧
      p2.offset.rotation_matrix.r0 = ⟨0, 0, 1⟩ ∧
      p2.offset.position.x - p2.size.z / 2 = -(3 / 2) ∧
      p2.offset.position.x + p2.size.z / 2 = 3 / 2 - 1 ∧
      p2.size.y = 2 - 0.2 ∧ p3.size.y = 0.2 ∧ p2.size.y + p3.size.y = 2) ∧
    (∃ p1 p2 p3,
      convert_rule "PB_DefaultRampInverted" ((3 : ℝ), (1 : ℝ), (2 : ℝ)) =
        some [p1, p2, p3] ∧
      p1.size.x = 1 ∧
      p1.offset.position.x - p1.size.x / 2 = 3 / 2 - 1 ∧
      p1.offset.position.x + p1.size.x / 2 = 3 / 2 ∧
      p2.size.z = 3 - 1 ∧
      p2.offset.rotation_matrix.r0 = ⟨0, 0, 1⟩ ∧
      p2.offset.position.x - p2.size.z / 2 = -(3 / 2) ∧
      p2.offset.position.x + p2.size.z / 2 = 3 / 2 - 1 ∧
      p2.size.y = 2 - 0.2 ∧ p3.size.y = 0.2 ∧ p2.size.y + p3.size.y = 2) ∧
    (∃ q1 q2,
      convert_rule "PB_DefaultWedge" ((3 : ℝ), (1 : ℝ), (2 : ℝ)) = some [q1, q2] ∧
      q1.size.y = 2 - 0.2 ∧ q2.size.y = 0.2 ∧ q1.size.y + q2.size.y = 2) :=
  c2_ramp_wedge_tiling 3 1 2 (by norm_num) (by norm_num)

/-! Helper lemmas for totality of to_instance. -/

theorem orientation_map_length : ORIENTATION_MAP.length = 24 := rfl

theorem orientation_index_lt {d r : ℕ} (hd : d < 6) (hr : r < 4) :
    (d <<< 2) ||| r < 24 := by
  interval_cases d <;> interval_cases r <;> decide

theorem toInstance_isSome (pd : PartDef) (save : SaveData) (brick : Brick)
    (hd : brick.direction < 6) (hr : brick.rotation < 4)
    (hc : ∀ i, brick.color = BrickColor.index i → i < save.colors.length)
    (hm : brick.material_index < save.materials.length)
    (hl : ∀ comp, brick.components.lookup "BCD_PointLight" = some comp →
      (comp.lookup "bUseBrickColor").isSome) :
    ∃ inst, pd.to_instance save brick = some inst := by
  obtain ⟨mc, hmc⟩ :
      ∃ mc, ORIENTATION_MAP[(brick.direction <<< 2) ||| brick.rotation]? = some mc := by
    have hlt : (brick.direction <<< 2) ||| brick.rotation < ORIENTATION_MAP.length := by
      rw [orientation_map_length]
      exact orientation_index_lt hd hr
    exact ⟨_, List.getElem?_eq_getElem hlt⟩
  obtain ⟨col, hcol⟩ : ∃ col, resolve_color pd save brick = some col := by
    rw [resolve_color]
    cases hpc : pd.color with
    | some c => exact ⟨c, rfl⟩
    | none =>
      cases hbc : brick.color with
      | unique c => exact ⟨c, rfl⟩
      | index i => exact ⟨_, List.getElem?_eq_getElem (hc i hbc)⟩
  obtain ⟨mp, hmp⟩ : ∃ mp, material_props save brick = some mp := by
    rw [material_props]
    cases hv : brick.visibility with
    | false => simp
    | true =>
      simp only [if_true]
      rw [List.getElem?_eq_getElem hm]
      exact ⟨_, rfl⟩
  have hch0 : (light_children brick (gammaColor col)).isSome := by
    rw [light_children]
    cases hcomp : brick.components.lookup "BCD_PointLight" with
    | none => rfl
    | some comp =>
      have hub := hl comp hcomp
      cases hu : comp.lookup "bUseBrickColor" with
      | none => rw [hu] at hub; simp at hub
      | some v => simp [hu]
  obtain ⟨ch, hch⟩ := Option.isSome_iff_exists.mp hch0
  have hs : (pd.to_instance save brick).isSome := by
    simp [PartDef.to_instance, hmc, hcol, hmp, hch]
  exact Option.isSome_iff_exists.mp hs

/-- Claim C3 (amended): with direction in [0,6), rotation in [0,4), the
brick's palette, material and asset indices within their tables, and
additionally every BCD_PointLight component bag containing the key
bUseBrickColor, to_instance never panics, and the orientation index
selects exactly one of the 24 table entries. -/
theorem c3_to_instance_total (pd : PartDef) (save : SaveData) (brick : Brick)
    (hd : brick.direction < 6) (hr : brick.rotation < 4)
    (hc : ∀ i, brick.color = BrickColor.index i → i < save.colors.length)
    (hm : brick.material_index < save.materials.length)
    (ha : brick.asset_name_index < save.brick_assets.length)
    (hl : ∀ comp, brick.components.lookup "BCD_PointLight" = some comp →
      (comp.lookup "bUseBrickColor").isSome) :
    ((brick.direction <<< 2) ||| brick.rotation) < ORIENTATION_MAP.length ∧
    ORIENTATION_MAP.length = 24 ∧
    ∃ inst, pd.to_instance save brick = some inst :=
  ⟨by rw [orientation_map_length]; exact orientation_index_lt hd hr, rfl,
   toInstance_isSome pd save brick hd hr hc hm hl⟩

/-- A brick that satisfies every precondition of C3 but carries a
BCD_PointLight component bag without the bUseBrickColor key. -/
def brickNoKey : Brick :=
  ⟨0, BrickSize.procedural 1 1 1, (0, 0, 0), 0, 0,
   BrickColor.unique ⟨255, 255, 255, 255⟩, 0, 0, true, true,
   [("BCD_PointLight", [])]⟩

/-- Save metadata for the C3 counterexample. -/
def saveNoKey : SaveData := ⟨[], ["BMC_Plastic"], ["PB_DefaultBrick"]⟩

/-- Counterexample to C3 as stated: all of the claim's preconditions
hold, yet to_instance panics (indexes the component bag with the
missing key bUseBrickColor), modelled as the none result. -/
theorem c3_counterexample :
    brickNoKey.direction < 6 ∧ brickNoKey.rotation < 4 ∧
    brickNoKey.material_index < saveNoKey.materials.length ∧
    brickNoKey.asset_name_index < saveNoKey.brick_assets.length ∧
    (∀ i, brickNoKey.color = BrickColor.index i → i < saveNoKey.colors.length) ∧
    PartDef.default.to_instance saveNoKey brickNoKey = none := by
  refine ⟨by decide, by decide, by decide, by decide, ?_, rfl⟩
  intro i h
  simp [brickNoKey] at h

/-- Witness for C3 (amended) at a concrete brick. -/
theorem c3_to_instance_total_witness :
    ((brickOk.direction <<< 2) ||| brickOk.rotation) < ORIENTATION_MAP.length ∧
    ORIENTATION_MAP.length = 24 ∧
    ∃ inst, PartDef.default.to_instance saveOk brickOk = some inst :=
  c3_to_instance_total PartDef.default saveOk brickOk (by decide) (by decide)
    (fun i h => by simp [brickOk] at h; simp [saveOk]; omega)
    (by decide) (by decide)
    (fun comp h => by simp [brickOk] at h)

/-- Destructuring of a successful to_instance run into its four
intermediate results and the assembled instance. -/
theorem to_instance_eq_some {pd : PartDef} {save : SaveData} {brick : Brick}
    {inst : Instance} (h : pd.to_instance save brick = some inst) :
    ∃ mc col mp ch,
      ORIENTATION_MAP[(brick.direction <<< 2) ||| brick.rotation]? = some mc ∧
      resolve_color pd save brick = some col ∧
      material_props save brick = some mp ∧
      light_children brick (gammaColor col) = some ch ∧
      inst = Instance.mk pd.className pd.className
        ([("Size", Variant.vec3 pd.size),
          ("CFrame",
            Variant.cframe
              (CoordinateFrame.from_rotation ((brick.position.1 : ℝ) / 10)
                ((brick.position.2.2 : ℝ) / 10) ((brick.position.2.1 : ℝ) / 10) mc *
                pd.offset).position
              (CoordinateFrame.from_rotation ((brick.position.1 : ℝ) / 10)
                ((brick.position.2.2 : ℝ) / 10) ((brick.position.2.1 : ℝ) / 10) mc *
                pd.offset).rotation_matrix),
          ("Color", Variant.color3 (gammaColor col))]
          ++ mp ++
          (if brick.collision_player then [] else [("CanCollide", Variant.bool false)])
          ++ [("Anchored", Variant.bool true)] ++ pd.properties) ch := by
  simp only [PartDef.to_instance, bind, Option.bind_eq_some, pure] at h
  obtain ⟨mc, hmc, col, hcol, mp, hmp, ch, hch, h⟩ := h
  rw [Option.some_inj] at h
  exact ⟨mc, col, mp, ch, hmc, hcol, hmp, hch, h.symm⟩

/-- Claim C4 (amended): for visible bricks, the ghost identifiers
BMC_Ghost and BMC_Ghost_Fail map to the glow target material (enum 288)
together with the fixed 0.5 transparency; the BMC_Glow identifier maps
to the glow target material with no transparency write; and BMC_Glass
maps to Transparency equal to one minus the material intensity divided
by its fixed maximum of 10. -/
theorem c4_material_mapping (pd : PartDef) (save : SaveData) (brick : Brick)
    (inst : Instance) (mat : String)
    (hv : brick.visibility = true)
    (hm : save.materials[brick.material_index]? = some mat)
    (hi : pd.to_instance save brick = some inst)
    (hp : pd.properties.lookup "Transparency" = none) :
    ((mat = "BMC_Ghost" ∨ mat = "BMC_Ghost_Fail") →
      inst.properties.lookup "Material" = some (Variant.enum 288) ∧
      inst.properties.lookup "Transparency" = some (Variant.float 0.5)) ∧
    (mat = "BMC_Glow" →
      inst.properties.lookup "Material" = some (Variant.enum 288) ∧
      inst.properties.lookup "Transparency" = none) ∧
    (mat = "BMC_Glass" →
      inst.properties.lookup "Transparency" =
        some (Variant.float (1 - (brick.material_intensity : ℝ) / 10))) := by
  obtain ⟨mc, col, mp, ch, hmc, hcol, hmp, hch, rfl⟩ := to_instance_eq_some hi
  rw [material_props, hv] at hmp
  simp only [if_true, hm, Option.some_inj] at hmp
  subst hmp
  refine ⟨?_, ?_, ?_⟩
  · rintro (rfl | rfl) <;>
      exact ⟨rfl, rfl⟩
  · rintro rfl
    refine ⟨rfl, ?_⟩
    cases hcp : brick.collision_player <;>
      simp [Instance.properties, List.lookup, hp]
  · rintro rfl
    exact rfl

/-- Save metadata whose material table holds the BMC_Glow identifier. -/
def saveGlow : SaveData := ⟨[⟨1, 2, 3, 255⟩], ["BMC_Glow"], ["PB_DefaultBrick"]⟩

/-- A visible brick using material index 0 (BMC_Glow in saveGlow). -/
def brickGlow : Brick :=
  ⟨0, BrickSize.procedural 1 1 1, (0, 0, 0), 0, 0, BrickColor.index 0,
   0, 10, true, true, []⟩

/-- Counterexample to C4 as stated: a visible brick whose material
identifier is the glow material receives the target material but no
transparency write at all, in particular not Transparency = 0.5. -/
theorem c4_counterexample :
    ∃ i, PartDef.default.to_instance saveGlow brickGlow = some i ∧
      i.properties.lookup "Material" = some (Variant.enum 288) ∧
      i.properties.lookup "Transparency" = none :=
  ⟨_, rfl, rfl, rfl⟩

/-- Save metadata whose material table holds the BMC_Ghost identifier. -/
def saveGhost : SaveData := ⟨[⟨1, 2, 3, 255⟩], ["BMC_Ghost"], ["PB_DefaultBrick"]⟩

/-- A visible brick using material index 0 (BMC_Ghost in saveGhost). -/
def brickGhost : Brick :=
  ⟨0, BrickSize.procedural 1 1 1, (0, 0, 0), 0, 0, BrickColor.index 0,
   0, 10, true, true, []⟩

/-- Witness for C4 (amended) at a concrete ghost-material brick. -/
theorem c4_material_mapping_witness :
    ∃ i, PartDef.default.to_instance saveGhost brickGhost = some i ∧
      (((("BMC_Ghost" : String) = "BMC_Ghost" ∨
          ("BMC_Ghost" : String) = "BMC_Ghost_Fail") →
        i.properties.lookup "Material" = some (Variant.enum 288) ∧
        i.properties.lookup "Transparency" = some (Variant.float 0.5)) ∧
      (("BMC_Ghost" : String) = "BMC_Glow" →
        i.properties.lookup "Material" = some (Variant.enum 288) ∧
        i.properties.lookup "Transparency" = none) ∧
      (("BMC_Ghost" : String) = "BMC_Glass" →
        i.properties.lookup "Transparency" =
          some (Variant.float (1 - (brickGhost.material_intensity : ℝ) / 10)))) :=
  ⟨_, rfl, c4_material_mapping PartDef.default saveGhost brickGhost _ "BMC_Ghost"
    rfl rfl rfl rfl⟩

/-! Helper lemmas about mapOption. -/

theorem mapOption_length {α β : Type} (f : α → Option β) :
    ∀ (xs : List α) (ys : List β), mapOption f xs = some ys →
      ys.length = xs.length := by
  intro xs
  induction xs with
  | nil =>
    intro ys h
    simp only [mapOption, Option.some_inj] at h
    subst h
    rfl
  | cons x xs ih =>
    intro ys h
    simp only [mapOption, bind, Option.bind_eq_some, pure, Option.some_inj] at h
    obtain ⟨y, hy, ys2, hys2, h⟩ := h
    subst h
    simp [ih ys2 hys2]

theorem mapOption_mem {α β : Type} (f : α → Option β) :
    ∀ (xs : List α) (ys : List β), mapOption f xs = some ys →
      ∀ y ∈ ys, ∃ x ∈ xs, f x = some y := by
  intro xs
  induction xs with
  | nil =>
    intro ys h
    simp only [mapOption, Option.some_inj] at h
    subst h
    intro y hy
    simp at hy
  | cons x xs ih =>
    intro ys h
    simp only [mapOption, bind, Option.bind_eq_some, pure, Option.some_inj] at h
    obtain ⟨y, hy, ys2, hys2, h⟩ := h
    subst h
    intro z hz
    rcases List.mem_cons.mp hz with rfl | hz2
    · exact ⟨x, List.mem_cons_self x xs, hy⟩
    · obtain ⟨x2, hx2, hfx2⟩ := ih ys2 hys2 z hz2
      exact ⟨x2, List.mem_cons_of_mem x hx2, hfx2⟩

theorem mapOption_isSome {α β : Type} (f : α → Option β) :
    ∀ xs : List α, (∀ x ∈ xs, (f x).isSome) →
      ∃ ys, mapOption f xs = some ys ∧ ys.length = xs.length := by
  intro xs
  induction xs with
  | nil => exact fun _ => ⟨[], rfl, rfl⟩
  | cons x xs ih =>
    intro h
    obtain ⟨y, hy⟩ := Option.isSome_iff_exists.mp (h x (List.mem_cons_self x xs))
    obtain ⟨ys, hys, hlen⟩ := ih fun z hz => h z (List.mem_cons_of_mem x hz)
    refine ⟨y :: ys, ?_, by simp [hlen]⟩
    simp [mapOption, hy, hys]

theorem convert_rule_ramp_parts (s : ℝ × ℝ × ℝ) :
    ∃ a b c, convert_rule "PB_DefaultRamp" s = some [a, b, c] := ⟨_, _, _, rfl⟩

/-- Claim C9: when a brick carries a BCD_PointLight component, every
instance resolved by to_instance gets its own single PointLight child;
in particular, every sub-primitive emitted by convert_brick carries one
light, three lights in total for a PB_DefaultRamp brick. -/
theorem c9_point_light_per_primitive (save : SaveData) (brick : Brick)
    (comp : List (String × UnrealType))
    (hcomp : brick.components.lookup "BCD_PointLight" = some comp) :
    (∀ (pd : PartDef) (inst : Instance), pd.to_instance save brick = some inst →
      ∃ l, inst.children = [l] ∧ l.className = "PointLight") ∧
    (∀ out, convert_brick brick save = some (some out) →
      (∀ i ∈ out, ∃ l, i.children = [l] ∧ l.className = "PointLight") ∧
      (save.brick_assets[brick.asset_name_index]? = some "PB_DefaultRamp" →
        out.length = 3)) := by
  have hper : ∀ (pd : PartDef) (inst : Instance),
      pd.to_instance save brick = some inst →
      ∃ l, inst.children = [l] ∧ l.className = "PointLight" := by
    intro pd inst hi
    obtain ⟨mc, col, mp, ch, hmc, hcol, hmp, hch, rfl⟩ := to_instance_eq_some hi
    rw [light_children, hcomp] at hch
    cases hu : comp.lookup "bUseBrickColor" with
    | none => simp [hu] at hch
    | some v =>
      simp only [hu, Option.some_inj] at hch
      subst hch
      exact ⟨_, rfl, rfl⟩
  refine ⟨hper, ?_⟩
  intro out hconv
  simp only [convert_brick, bind, Option.bind_eq_some] at hconv
  obtain ⟨asset, hasset, hconv⟩ := hconv
  cases hcr : convert_rule asset (normalizedSize brick.size) with
  | none =>
    rw [hcr] at hconv
    simp at hconv
  | some defs =>
    rw [hcr] at hconv
    simp only [bind, Option.bind_eq_some, pure, Option.some_inj] at hconv
    obtain ⟨insts, hmapp, h2⟩ := hconv
    subst h2
    constructor
    · intro i hi
      obtain ⟨x, hx, hfx⟩ := mapOption_mem _ defs insts hmapp i hi
      exact hper x i hfx
    · intro hramp
      rw [hasset, Option.some_inj] at hramp
      subst hramp
      obtain ⟨a, b, c, habc⟩ := convert_rule_ramp_parts (normalizedSize brick.size)
      rw [habc, Option.some_inj] at hcr
      subst hcr
      simp [mapOption_length _ _ _ hmapp]

/-- Save metadata whose asset table holds the ramp identifier. -/
def saveL : SaveData := ⟨[⟨1, 2, 3, 255⟩], ["BMC_Plastic"], ["PB_DefaultRamp"]⟩

/-- A ramp brick carrying a BCD_PointLight component. -/
def brickL : Brick :=
  ⟨0, BrickSize.procedural 10 10 10, (0, 0, 0), 0, 0, BrickColor.index 0,
   0, 0, true, true,
   [("BCD_PointLight", [("bUseBrickColor", UnrealType.boolean true)])]⟩

/-- Witness for C9 at a concrete ramp brick with a point light. -/
theorem c9_point_light_per_primitive_witness :
    (∃ out, convert_brick brickL saveL = some (some out)) ∧
    ((∀ (pd : PartDef) (inst : Instance), pd.to_instance saveL brickL = some inst →
        ∃ l, inst.children = [l] ∧ l.className = "PointLight") ∧
     (∀ out, convert_brick brickL saveL = some (some out) →
        (∀ i ∈ out, ∃ l, i.children = [l] ∧ l.className = "PointLight") ∧
        (saveL.brick_assets[brickL.asset_name_index]? = some "PB_DefaultRamp" →
          out.length = 3))) :=
  ⟨⟨_, rfl⟩, c9_point_light_per_primitive saveL brickL _ rfl⟩

/-- Claim C10: a brick with the Empty size marker is normalized to size
(0,0,0), and convert_brick still returns its rule's non-empty primitive
list (under the usual no-panic side conditions) instead of failing or
skipping the brick. -/
theorem c10_empty_size_rules :
    normalizedSize BrickSize.empty = ((0 : ℝ), (0 : ℝ), (0 : ℝ)) ∧
    ∀ (brick : Brick) (save : SaveData) (asset : String),
      brick.size = BrickSize.empty →
      save.brick_assets[brick.asset_name_index]? = some asset →
      asset ∈ ruleAssets →
      brick.direction < 6 → brick.rotation < 4 →
      (∀ i, brick.color = BrickColor.index i → i < save.colors.length) →
      brick.material_index < save.materials.length →
      (∀ comp, brick.components.lookup "BCD_PointLight" = some comp →
        (comp.lookup "bUseBrickColor").isSome) →
      ∃ out, convert_brick brick save = some (some out) ∧ out ≠ [] := by
  refine ⟨rfl, ?_⟩
  intro brick save asset hsz hasset hmem hd hr hc hm hl
  have hrule : ∃ defs, convert_rule asset (normalizedSize brick.size) = some defs ∧
      defs ≠ [] := by
    rw [hsz]
    simp only [ruleAssets, List.mem_cons, List.not_mem_nil, or_false] at hmem
    rcases hmem with rfl | rfl | rfl | rfl | rfl | rfl | rfl | rfl | rfl | rfl | rfl |
      rfl | rfl | rfl | rfl <;> exact ⟨_, rfl, by simp⟩
  obtain ⟨defs, hdefs, hne⟩ := hrule
  have hall : ∀ pd ∈ defs, (pd.to_instance save brick).isSome := by
    intro pd _
    obtain ⟨i, hi⟩ := toInstance_isSome pd save brick hd hr hc hm hl
    simp [hi]
  obtain ⟨ys, hys, hlen⟩ := mapOption_isSome _ defs hall
  refine ⟨ys, ?_, ?_⟩
  · simp [convert_brick, hasset, hdefs, hys]
  · intro h0
    apply hne
    apply List.length_eq_zero.mp
    rw [← hlen, h0]
    rfl

/-- Save metadata whose asset table holds the wedge identifier. -/
def saveE : SaveData := ⟨[⟨4, 5, 6, 255⟩], ["BMC_Plastic"], ["PB_DefaultWedge"]⟩

/-- A wedge brick whose size field is the Empty marker. -/
def brickE : Brick :=
  ⟨0, BrickSize.empty, (0, 0, 0), 0, 0, BrickColor.index 0,
   0, 0, true, true, []⟩

/-- Witness for C10 at a concrete empty-size wedge brick. -/
theorem c10_empty_size_rules_witness :
    normalizedSize BrickSize.empty = ((0 : ℝ), (0 : ℝ), (0 : ℝ)) ∧
    ∃ out, convert_brick brickE saveE = some (some out) ∧ out ≠ [] :=
  ⟨c10_empty_size_rules.1,
   c10_empty_size_rules.2 brickE saveE "PB_DefaultWedge" rfl rfl (by decide)
     (by decide) (by decide)
     (fun i h => by simp [brickE] at h; simp [saveE]; omega)
     (by decide)
     (fun comp h => by simp [brickE] at h)⟩

/-- The rotation block of ORIENTATION_MAP entry 0, as a Matrix3. -/
def rotEntry0 : Mat3 := ⟨⟨0, 1, 0⟩, ⟨-1, 0, 0⟩, ⟨0, 0, 1⟩⟩

/-- The identity Matrix3. -/
def idMat3 : Mat3 := ⟨⟨1, 0, 0⟩, ⟨0, 1, 0⟩, ⟨0, 0, 1⟩⟩

/-- The brick of the end-to-end example: default cuboid asset,
direction 0, rotation 0, grid position (0,0,0), procedural size
10x10x10, palette color index i. -/
def brickC1 (i : ℕ) : Brick :=
  ⟨0, BrickSize.procedural 10 10 10, (0, 0, 0), 0, 0, BrickColor.index i,
   0, 0, true, true, []⟩

/-- Core computation for the end-to-end example: the default cuboid
brick at the origin resolves to exactly one instance with Size (2,2,2),
zero translation, rotation equal to orientation-table entry 0, and the
gamma-converted palette color. -/
theorem c1_core (colors : List Color) (i : ℕ) (c : Color) (matName : String)
    (hc : colors[i]? = some c) :
    ∃ inst, convert_brick (brickC1 i) ⟨colors, [matName], ["PB_DefaultBrick"]⟩ =
        some (some [inst]) ∧
      inst.properties.lookup "Size" = some (Variant.vec3 ⟨2, 2, 2⟩) ∧
      inst.properties.lookup "CFrame" = some (Variant.cframe ⟨0, 0, 0⟩ rotEntry0) ∧
      inst.properties.lookup "Color" = some (Variant.color3 (gammaColor c)) := by
  have hlen : i < colors.length := by
    by_contra hlt
    rw [List.getElem?_eq_none (Nat.le_of_not_lt hlt)] at hc
    cases hc
  obtain ⟨inst0, hinst⟩ := toInstance_isSome
    (PartDef.default.withSize (((10 : ℕ) : ℝ) / 5) (((10 : ℕ) : ℝ) / 5)
      (((10 : ℕ) : ℝ) / 5))
    ⟨colors, [matName], ["PB_DefaultBrick"]⟩ (brickC1 i)
    (show (0 : ℕ) < 6 by norm_num) (show (0 : ℕ) < 4 by norm_num)
    (fun j hj => by simp [brickC1] at hj; subst hj; exact hlen)
    (show (0 : ℕ) < 1 by norm_num)
    (fun comp h => by simp [brickC1] at h)
  have key : convert_brick (brickC1 i) ⟨colors, [matName], ["PB_DefaultBrick"]⟩ =
      Option.bind
        (Option.bind ((PartDef.default.withSize (((10 : ℕ) : ℝ) / 5)
            (((10 : ℕ) : ℝ) / 5) (((10 : ℕ) : ℝ) / 5)).to_instance
            ⟨colors, [matName], ["PB_DefaultBrick"]⟩ (brickC1 i))
          (fun y => some [y]))
        (fun instances => some (some instances)) := rfl
  obtain ⟨mc, col, mp, ch, hmc, hcol, hmp, hch, hshape⟩ := to_instance_eq_some hinst
  have hmc0 : ORIENTATION_MAP[(brickC1 i).direction <<< 2 ||| (brickC1 i).rotation]? =
      some (rm 0 (-1) 0 1 0 0 0 0 (-1)) := by
    show ORIENTATION_MAP[(0 : ℕ) <<< 2 ||| (0 : ℕ)]? =
      some (rm 0 (-1) 0 1 0 0 0 0 (-1))
    rfl
  rw [hmc0, Option.some_inj] at hmc
  subst hmc
  obtain rfl : c = col :=
    Option.some_inj.mp (hc.symm.trans (hcol : colors[i]? = some col))
  obtain rfl : ([] : List Instance) = ch :=
    Option.some_inj.mp (hch : some [] = some ch)
  refine ⟨inst0, ?_, ?_, ?_, ?_⟩
  · rw [key, hinst]
    rfl
  · rw [hshape]
    simp [Instance.properties, PartDef.withSize, PartDef.default, List.lookup]
    norm_num
  · rw [hshape]
    simp [Instance.properties, PartDef.withSize, PartDef.default, List.lookup,
      mul_default, CoordinateFrame.from_rotation, CoordinateFrame.position,
      CoordinateFrame.rotation_matrix, rm, rotEntry0, brickC1]
  · rw [hshape]
    simp [Instance.properties, PartDef.withSize, PartDef.default, List.lookup]

/-- Claim C1 (amended): a brick with direction 0, rotation 0, grid
position (0,0,0), asset PB_DefaultBrick, procedural size 10x10x10 and a
palette-index color converts to exactly one instance with Size (2,2,2),
zero translation, rotation matrix equal to orientation-table entry 0
([[0,1,0],[-1,0,0],[0,0,1]], not the identity), and color equal to the
gamma-converted palette entry. -/
theorem c1_default_brick_end_to_end (colors : List Color) (i : ℕ) (c : Color)
    (matName : String) (hc : colors[i]? = some c) :
    ∃ inst, convert_brick (brickC1 i) ⟨colors, [matName], ["PB_DefaultBrick"]⟩ =
        some (some [inst]) ∧
      inst.properties.lookup "Size" = some (Variant.vec3 ⟨2, 2, 2⟩) ∧
      inst.properties.lookup "CFrame" = some (Variant.cframe ⟨0, 0, 0⟩ rotEntry0) ∧
      inst.properties.lookup "Color" = some (Variant.color3 (gammaColor c)) :=
  c1_core colors i c matName hc

/-- Witness for C1 (amended) at a concrete palette. -/
theorem c1_default_brick_end_to_end_witness :
    ∃ inst, convert_brick (brickC1 0)
        ⟨[⟨10, 20, 30, 255⟩], ["BMC_Plastic"], ["PB_DefaultBrick"]⟩ =
        some (some [inst]) ∧
      inst.properties.lookup "Size" = some (Variant.vec3 ⟨2, 2, 2⟩) ∧
      inst.properties.lookup "CFrame" = some (Variant.cframe ⟨0, 0, 0⟩ rotEntry0) ∧
      inst.properties.lookup "Color" =
        some (Variant.color3 (gammaColor ⟨10, 20, 30, 255⟩)) :=
  c1_default_brick_end_to_end [⟨10, 20, 30, 255⟩] 0 ⟨10, 20, 30, 255⟩ "BMC_Plastic" rfl

/-- Counterexample to C1 as stated: at the claim's exact input the
single produced instance carries the rotation matrix of
orientation-table entry 0, which is not the identity matrix. -/
theorem c1_counterexample :
    (∃ inst, convert_brick (brickC1 0)
        ⟨[⟨10, 20, 30, 255⟩], ["BMC_Plastic"], ["PB_DefaultBrick"]⟩ =
        some (some [inst]) ∧
      inst.properties.lookup "CFrame" = some (Variant.cframe ⟨0, 0, 0⟩ rotEntry0)) ∧
    rotEntry0 ≠ idMat3 := by
  constructor
  · obtain ⟨inst, h1, h2, h3, h4⟩ :=
      c1_core [⟨10, 20, 30, 255⟩] 0 ⟨10, 20, 30, 255⟩ "BMC_Plastic" rfl
    exact ⟨inst, h1, h3⟩
  · intro h
    simp [rotEntry0, idMat3] at h

end BrsRbxl
